import Mathlib

/-!
Shallow embedding of the voice-bot core (src/voice.py, src/main.py):
the TTL cache, the shared retry/backoff loop around the two outbound
HTTP operations (`get_voices`, `synthesize_speech`), response
normalization, and the pagination helper `_paginate_buttons`.

Durations and timestamps are modelled in integer milliseconds (so the
Python floats 0.5, 1.0, 2.0, 600.0 seconds become 500, 1000, 2000,
600000).  An HTTP attempt's outcome is either
a response (status code plus already-parsed body) or a transport-level
error (`httpx.HTTPError` that is not an `HTTPStatusError`).  The
environment supplies the outcome of the i-th network call as a function
`Nat → HttpResult _`.  Python truthiness (`or` chains, `if not text`)
is modelled explicitly.
-/

namespace PE43

/-- The configuration fields of `config.Settings` that the claims touch. -/
structure Settings where
  default_voice_id : String

/-- Outcome of one HTTP call: a response carrying a status code and a
parsed body, or a transport error (timeout / connection failure). -/
inductive HttpResult (α : Type) where
  | response : Nat → α → HttpResult α
  | transportError : HttpResult α
deriving DecidableEq

/-- What the `try/except` block of either retry loop does with one
attempt's outcome. -/
inductive AttemptOutcome (α : Type) where
  | ok : α → AttemptOutcome α
  | retryable : AttemptOutcome α
  | fatal : AttemptOutcome α
deriving DecidableEq

/-- The shared error classification of both loops (voice.py:79-112 and
voice.py:153-174): status 429 raises `RateLimitError` (retried); other
4xx/5xx raise `httpx.HTTPStatusError` via `raise_for_status`, with 5xx
retried (`continue`) and remaining 4xx aborting (`break`); transport
errors (`httpx.HTTPError`) are retried; anything else is success. -/
def classify {α : Type} : HttpResult α → AttemptOutcome α
  | .response s body =>
      if s = 429 then .retryable
      else if 400 ≤ s ∧ s < 500 then .fatal
      else if 500 ≤ s ∧ s < 600 then .retryable
      else .ok body
  | .transportError => .retryable

/-- The list `backoffs = [0.5, 1.0, 2.0]` in milliseconds (voice.py:71 and
voice.py:129). -/
def backoffs : List ℕ := [500, 1000, 2000]

/-- The attempt schedule `[0.0] + backoffs` iterated by both loops. -/
def schedule : List ℕ := 0 :: backoffs

/-- Result of running a retry loop: the success body if any, the number
of network calls performed, and the delays actually slept (in ms), in
order. -/
structure RunResult (α : Type) where
  outcome : Option α
  attempts : Nat
  sleeps : List ℕ
deriving DecidableEq

/-- One step of `for attempt, backoff in enumerate([0.0] + backoffs)`:
sleep `backoff` if it is non-zero (`if backoff:`), perform the call,
classify the exception.  `n` counts calls already made; `acc` holds the
delays slept so far, in reverse. -/
def retryGo {α : Type} (env : Nat → HttpResult α) :
    List ℕ → Nat → List ℕ → RunResult α
  | [], n, acc => ⟨none, n, acc.reverse⟩
  | b :: rest, n, acc =>
      let acc' := if b = 0 then acc else b :: acc
      match classify (env n) with
      | .ok a => ⟨some a, n + 1, acc'.reverse⟩
      | .retryable => retryGo env rest (n + 1) acc'
      | .fatal => ⟨none, n + 1, acc'.reverse⟩

/-- The full retry loop over the 4-attempt schedule. -/
def runRetry {α : Type} (env : Nat → HttpResult α) : RunResult α :=
  retryGo env schedule 0 []

/-- A raw entry of the provider's voice list (a JSON object; `none`
models an absent key). -/
structure RawVoice where
  voice_id : Option String
  vid : Option String
  name : Option String
  labels : Option (List (String × String))
deriving DecidableEq

/-- The parsed body of `GET /voices`: the two keys the code looks at. -/
structure VoicesBody where
  voices : Option (List RawVoice)
  data : Option (List RawVoice)
deriving DecidableEq

/-- A normalized voice dict `{id, name, labels}` (voice.py:87-91).
`id` is `Option` because `v.get("voice_id") or v.get("id")` can be
`None`. -/
structure Voice where
  id : Option String
  name : String
  labels : Option (List (String × String))
deriving DecidableEq

/-- Python truthiness of an optional string (`None` and `""` falsy). -/
def strTruthy : Option String → Bool
  | none => false
  | some s => s ≠ ""

/-- Python `a or b` on optional strings. -/
def pyOrStr (a b : Option String) : Option String :=
  if strTruthy a then a else b

/-- Python `a or d` where `d` is a plain string. -/
def pyStrOrDefault (a : Option String) (d : String) : String :=
  match a with
  | some s => if s = "" then d else s
  | none => d

/-- Python `v.get("labels") or None` (an empty dict is falsy). -/
def pyLabelsOrNone (a : Option (List (String × String))) :
    Option (List (String × String)) :=
  match a with
  | some l => if l.isEmpty then none else some l
  | none => none

/-- Normalization of one raw entry (voice.py:87-91):
`id = v.get("voice_id") or v.get("id")`, `name = v.get("name") or
"Unnamed"`, `labels = v.get("labels") or None`. -/
def normalize_voice (v : RawVoice) : Voice :=
  { id := pyOrStr v.voice_id v.vid
    name := pyStrOrDefault v.name ("Unnamed")
    labels := pyLabelsOrNone v.labels }

/-- Python truthiness of an optional list (`None` and `[]` falsy). -/
def listTruthy (a : Option (List RawVoice)) : Bool :=
  match a with
  | none => false
  | some l => !l.isEmpty

/-- The extraction `items = data.get("voices") or data.get("data") or []`
(voice.py:84). -/
def responseItems (b : VoicesBody) : List RawVoice :=
  if listTruthy b.voices then b.voices.getD []
  else if listTruthy b.data then b.data.getD []
  else []

/-- The synthetic default entry
`{"id": settings.default_voice_id, "name": "Default", "labels": {}}`
(voice.py:94 and voice.py:116). -/
def fallbackVoice (settings : Settings) : Voice :=
  ⟨some settings.default_voice_id, "Default", some []⟩

/-- The `_VoicesCache` dataclass state (voice.py:28-43); `ttl` is the
fixed constant below. -/
structure CacheState where
  value : Option (List Voice)
  ts : ℤ
deriving DecidableEq

/-- The constant `ttl: float = 600.0` seconds, i.e. 600000 ms (voice.py:32). -/
def cacheTtl : ℤ := 600000

/-- Method `_VoicesCache.get` (voice.py:34-39): `None` if empty, `None` if
`time.time() - self.ts > self.ttl`, else the value. -/
def cacheGet (c : CacheState) (now : ℤ) : Option (List Voice) :=
  match c.value with
  | none => none
  | some v => if now - c.ts > cacheTtl then none else some v

/-- Method `_VoicesCache.set` (voice.py:41-43). -/
def cacheSet (_c : CacheState) (v : List Voice) (now : ℤ) : CacheState :=
  ⟨some v, now⟩

/-- What a `get_voices()` call produces: the returned list, the cache
state afterwards, the number of network calls issued, and the delays
slept. -/
structure GetVoicesResult where
  voices : List Voice
  cache : CacheState
  networkCalls : Nat
  sleeps : List ℕ
deriving DecidableEq

/-- The success path of the fetch (voice.py:84-94): normalize every
item; if the normalized list is empty, substitute the fallback entry. -/
def normalizedVoices (settings : Settings) (body : VoicesBody) :
    List Voice :=
  let vs := (responseItems body).map normalize_voice
  if vs.isEmpty then [fallbackVoice settings] else vs

/-- Function `get_voices` (voice.py:61-116): cache hit returns immediately with
no network call; otherwise the retry loop runs; on success the items
are normalized (an empty normalized list is replaced by the fallback
entry) and cached; on total failure the fallback entry is returned
without touching the cache. -/
def get_voices (settings : Settings) (cache : CacheState) (now : ℤ)
    (env : Nat → HttpResult VoicesBody) : GetVoicesResult :=
  match cacheGet cache now with
  | some cached => ⟨cached, cache, 0, []⟩
  | none =>
      let run := runRetry env
      match run.outcome with
      | some body =>
          ⟨normalizedVoices settings body,
           cacheSet cache (normalizedVoices settings body) now,
           run.attempts, run.sleeps⟩
      | none => ⟨[fallbackVoice settings], cache, run.attempts, run.sleeps⟩

/-- The exception taxonomy of voice.py:16-25, restricted to what
`synthesize_speech` can raise to its caller. -/
inductive SynthError where
  | invalidInput : String → SynthError
  | serviceError : String → SynthError
deriving DecidableEq

/-- The generic user-safe message of voice.py:177. -/
def synthFailureMessage : String :=
  "Не удалось сгенерировать аудио. Попробуйте позже."

/-- What a `synthesize_speech` call produces. -/
structure SynthResult where
  result : Except SynthError (List Nat)
  networkCalls : Nat
  sleeps : List ℕ

/-- Function `synthesize_speech` (voice.py:119-177): validation of `text` before
any network activity, then the shared retry loop; audio bytes are
modelled as `List Nat`.  `voice_id` and `fmt` only shape the request
and do not influence control flow. -/
def synthesize_speech (text : String) (_voice_id : String)
    (_fmt : String := "mp3") (env : Nat → HttpResult (List Nat)) :
    SynthResult :=
  if text = "" then ⟨.error (.invalidInput ("Пустой текст")), 0, []⟩
  else if text.length > 5000 then
    ⟨.error (.invalidInput ("Слишком длинный текст (>5000)")), 0, []⟩
  else
    let run := runRetry env
    match run.outcome with
    | some content => ⟨.ok content, run.attempts, run.sleeps⟩
    | none => ⟨.error (.serviceError synthFailureMessage),
               run.attempts, run.sleeps⟩

/-- An `InlineKeyboardButton`: label (may be Python `None`) and its
callback payload. -/
structure Button where
  label : Option String
  callback_data : String
deriving DecidableEq

/-- Normalize a Python slice endpoint to a list index
(negative counts from the end, both directions clamp). -/
def pyIdx (n : Nat) (i : Int) : Nat :=
  if i < 0 then ((n : Int) + i).toNat else min i.toNat n

/-- Python `l[a:b]` for integer endpoints, no step. -/
def pySlice {α : Type} (l : List α) (a b : Int) : List α :=
  (l.take (pyIdx l.length b)).drop (pyIdx l.length a)

/-- The slice `voices[page*page_size : page*page_size+page_size]`
(main.py:28-30). -/
def page_slice (voices : List Voice) (page : Int) (page_size : Nat) :
    List Voice :=
  pySlice voices (page * page_size) (page * page_size + page_size)

/-- Interpolation `f"{x}"` on an optional string: `None` prints as `"None"`. -/
def pyShowOptStr : Option String → String
  | none => "None"
  | some s => s

/-- The per-item row button (main.py:33-34):
label `v.get("name") or v.get("id")`, payload `pick:{v['id']}`. -/
def voiceButton (v : Voice) : Button :=
  ⟨if v.name = "" then v.id else some v.name,
   "pick:" ++ pyShowOptStr v.id⟩

/-- The "⟵ Назад" button targeting the previous page (main.py:39). -/
def prevButton (page : Int) : Button :=
  ⟨some ("⟵ Назад"), "page:" ++ toString (page - 1)⟩

/-- The "Далее ⟶" button targeting the next page (main.py:41). -/
def nextButton (page : Int) : Button :=
  ⟨some ("Далее ⟶"), "page:" ++ toString (page + 1)⟩

/-- The "Обновить" button (main.py:42). -/
def refreshButton : Button := ⟨some ("Обновить"), "refresh"⟩

/-- Function `_paginate_buttons` (main.py:27-44): one row per sliced item, then
one navigation row; `total_pages = max(1, (len(voices)+page_size-1) //
page_size)`. -/
def _paginate_buttons (voices : List Voice) (page : Int)
    (page_size : Nat := 8) : List (List Button) × Nat :=
  let page_voices := page_slice voices page page_size
  let rows := page_voices.map (fun v => [voiceButton v])
  let total_pages := max 1 ((voices.length + page_size - 1) / page_size)
  let nav :=
    (if page > 0 then [prevButton page] else []) ++
    (if page + 1 < (total_pages : Int) then [nextButton page] else []) ++
    [refreshButton]
  (rows ++ [nav], total_pages)

/-- Decimal digits to a number, `none` on a non-digit or empty input. -/
def digitsToNat : List Char → Option Nat
  | [] => none
  | l => l.foldl
      (fun acc c =>
        match acc with
        | none => none
        | some n => if c.isDigit then some (n * 10 + (c.toNat - 48)) else none)
      (some 0)

/-- Python `int(s)` on the canonical payload shapes the bot itself
emits (an optional minus sign followed by decimal digits). -/
def pyInt (l : List Char) : Option Int :=
  match l with
  | '-' :: rest => (digitsToNat rest).map (fun n => -(n : Int))
  | _ => (digitsToNat l).map (fun n => (n : Int))

/-- Function `on_callback`'s page parse for a `page:<int>` payload (main.py:74-75):
`int(data.split(":", 1)[1])`.  No lower bound is enforced, so a
negative page index reaches `_paginate_buttons`. -/
def callbackPage (data : String) : Option Int :=
  if "page:".data.isPrefixOf data.data then pyInt (data.data.drop 5)
  else none

/-! Concrete environments and data used to instantiate the theorems
below on closed inputs. -/

/-- Three rate-limit responses, then a success. -/
def envSynth429 : Nat → HttpResult (List Nat) :=
  fun n => if n < 3 then .response 429 [] else .response 200 [7, 8]

/-- A sample one-entry voice-directory body. -/
def sampleBody : VoicesBody :=
  ⟨some [⟨some ("v1"), none, some ("Alice"), none⟩], none⟩

/-- Three rate-limit responses, then a success, for the directory. -/
def envVoices429 : Nat → HttpResult VoicesBody :=
  fun n => if n < 3 then .response 429 ⟨none, none⟩
           else .response 200 sampleBody

/-- Every attempt fails with a 503. -/
def envVoices503 : Nat → HttpResult VoicesBody :=
  fun _ => .response 503 ⟨none, none⟩

/-- The first attempt fails with a 400. -/
def envSynth400 : Nat → HttpResult (List Nat) :=
  fun _ => .response 400 []

/-- The first attempt fails with a 400, for the directory. -/
def envVoices400 : Nat → HttpResult VoicesBody :=
  fun _ => .response 400 ⟨none, none⟩

/-- Every attempt succeeds, for the directory. -/
def envVoices200 : Nat → HttpResult VoicesBody :=
  fun _ => .response 200 sampleBody

/-- A voice distinguishable by the length of its labels list. -/
def demoVoice (i : Nat) : Voice :=
  ⟨some ("v"), "n", some (List.replicate i ("l", "x"))⟩

/-- Twenty-four pairwise-distinguishable voices. -/
def demoVoices : List Voice := (List.range 24).map demoVoice

/-! ## Supporting lemmas -/

/-- A 429 response is retried. -/
lemma classify_rate_limit {α : Type} (b : α) :
    classify (.response 429 b) = .retryable := by
  simp [classify]

/-- A 4xx other than 429 aborts. -/
lemma classify_client_error {α : Type} {s : ℕ} (b : α)
    (h4 : 400 ≤ s) (h5 : s < 500) (hne : s ≠ 429) :
    classify (.response s b) = .fatal := by
  simp [classify, hne, h4, h5]

/-- A status below 400 is a success. -/
lemma classify_success {α : Type} {s : ℕ} (b : α) (h : s < 400) :
    classify (.response s b) = .ok b := by
  have h1 : s ≠ 429 := by omega
  have h2 : ¬ (400 ≤ s ∧ s < 500) := by omega
  have h3 : ¬ (500 ≤ s ∧ s < 600) := by omega
  simp [classify, h1, h2, h3]

/-- The loop never makes more calls than schedule entries remain. -/
lemma retryGo_attempts_le {α : Type} (env : Nat → HttpResult α) :
    ∀ (sch : List ℕ) (n : ℕ) (acc : List ℕ),
      (retryGo env sch n acc).attempts ≤ n + sch.length := by
  intro sch
  induction sch with
  | nil => intro n acc; simp [retryGo]
  | cons b rest ih =>
      intro n acc
      rcases h : classify (env n) with a | _ | _ <;>
        simp only [retryGo, h, List.length_cons] <;> try omega
      have := ih (n + 1) (if b = 0 then acc else b :: acc)
      omega

/-- The loop makes at least one call per schedule entry consumed. -/
lemma retryGo_attempts_ge {α : Type} (env : Nat → HttpResult α) :
    ∀ (sch : List ℕ) (n : ℕ) (acc : List ℕ),
      n ≤ (retryGo env sch n acc).attempts := by
  intro sch
  induction sch with
  | nil => intro n acc; simp [retryGo]
  | cons b rest ih =>
      intro n acc
      rcases h : classify (env n) with a | _ | _ <;>
        simp only [retryGo, h] <;> try omega
      have := ih (n + 1) (if b = 0 then acc else b :: acc)
      omega

/-- A nonempty schedule performs at least one call. -/
lemma retryGo_attempts_succ {α : Type} (env : Nat → HttpResult α)
    (b : ℕ) (rest : List ℕ) (n : ℕ) (acc : List ℕ) :
    n + 1 ≤ (retryGo env (b :: rest) n acc).attempts := by
  rcases h : classify (env n) with a | _ | _ <;>
    simp only [retryGo, h] <;> try omega
  have := retryGo_attempts_ge env rest (n + 1)
    (if b = 0 then acc else b :: acc)
  omega

/-- At most 4 network calls per retry loop. -/
lemma runRetry_attempts_le {α : Type} (env : Nat → HttpResult α) :
    (runRetry env).attempts ≤ 4 := by
  have := retryGo_attempts_le env schedule 0 []
  simpa [runRetry, schedule, backoffs] using this

/-- At least one network call per retry loop. -/
lemma runRetry_attempts_pos {α : Type} (env : Nat → HttpResult α) :
    1 ≤ (runRetry env).attempts :=
  retryGo_attempts_succ env 0 backoffs 0 []

/-- Aborting at attempt `k` (all earlier attempts retryable) stops the
loop with `k + 1` calls and only the delays already slept. -/
lemma runRetry_abort {α : Type} (env : Nat → HttpResult α) (k : ℕ)
    (hk : k < 4) (hprev : ∀ j < k, classify (env j) = .retryable)
    (habort : classify (env k) = .fatal) :
    runRetry env = ⟨none, k + 1, backoffs.take k⟩ := by
  interval_cases k
  · simp [runRetry, schedule, backoffs, retryGo, habort]
  · have c0 := hprev 0 (by omega)
    simp [runRetry, schedule, backoffs, retryGo, c0, habort]
  · have c0 := hprev 0 (by omega)
    have c1 := hprev 1 (by omega)
    simp [runRetry, schedule, backoffs, retryGo, c0, c1, habort]
  · have c0 := hprev 0 (by omega)
    have c1 := hprev 1 (by omega)
    have c2 := hprev 2 (by omega)
    simp [runRetry, schedule, backoffs, retryGo, c0, c1, c2, habort]

/-- Unfolding `synthesize_speech` on valid text. -/
lemma synthesize_speech_valid (text vid fmt : String)
    (env : Nat → HttpResult (List Nat))
    (ht : text ≠ "") (hl : text.length ≤ 5000) :
    synthesize_speech text vid fmt env =
      match (runRetry env).outcome with
      | some content => ⟨.ok content, (runRetry env).attempts,
                         (runRetry env).sleeps⟩
      | none => ⟨.error (.serviceError synthFailureMessage),
                 (runRetry env).attempts, (runRetry env).sleeps⟩ := by
  have hl' : ¬ text.length > 5000 := by omega
  simp only [synthesize_speech, ht, hl', if_neg, if_false, reduceIte]

/-- Unfolding `get_voices` on a cache miss. -/
lemma get_voices_miss (settings : Settings) (cache : CacheState)
    (now : ℤ) (env : Nat → HttpResult VoicesBody)
    (hmiss : cacheGet cache now = none) :
    get_voices settings cache now env =
      match (runRetry env).outcome with
      | some body =>
          ⟨normalizedVoices settings body,
           cacheSet cache (normalizedVoices settings body) now,
           (runRetry env).attempts, (runRetry env).sleeps⟩
      | none => ⟨[fallbackVoice settings], cache,
                 (runRetry env).attempts, (runRetry env).sleeps⟩ := by
  simp only [get_voices, hmiss]

/-- A string of `n` copies of one character has length `n`. -/
lemma length_mk_replicate (n : ℕ) (c : Char) :
    (String.mk (List.replicate n c)).length = n := by
  simp [String.length]

/-! ## Claims -/

/-- C6: `synthesize_speech` fails with `InvalidInputError` whenever the
text is empty or longer than 5000 characters, before any network call
and with no retry delay. -/
theorem synthesize_invalid_input_no_network (text vid fmt : String)
    (env : Nat → HttpResult (List Nat))
    (h : text = "" ∨ 5000 < text.length) :
    (∃ m, (synthesize_speech text vid fmt env).result =
        .error (.invalidInput m)) ∧
    (synthesize_speech text vid fmt env).networkCalls = 0 ∧
    (synthesize_speech text vid fmt env).sleeps = [] := by
  rcases h with h | h
  · subst h
    exact ⟨⟨_, rfl⟩, rfl, rfl⟩
  · have ht : ¬ (text = "") := by
      intro he
      rw [he] at h
      simp at h
    simp [synthesize_speech, if_neg ht, if_pos h]

/-- Witness for C6 at the empty text and at a 5001-character text. -/
theorem synthesize_invalid_input_no_network_witness :
    (("" : String) = "" ∨ 5000 < ("" : String).length) ∧
    (String.mk (List.replicate 5001 'a') = "" ∨
      5000 < (String.mk (List.replicate 5001 'a')).length) ∧
    (∃ m, (synthesize_speech "" ("v") ("mp3") envSynth400).result =
        .error (.invalidInput m)) ∧
    (synthesize_speech "" ("v") ("mp3") envSynth400).networkCalls = 0 ∧
    (∃ m, (synthesize_speech (String.mk (List.replicate 5001 'a')) ("v")
        ("mp3") envSynth400).result = .error (.invalidInput m)) ∧
    (synthesize_speech (String.mk (List.replicate 5001 'a')) ("v")
        ("mp3") envSynth400).networkCalls = 0 := by
  have hlong : String.mk (List.replicate 5001 'a') = "" ∨
      5000 < (String.mk (List.replicate 5001 'a')).length := by
    right
    rw [length_mk_replicate]
    decide
  have h1 := synthesize_invalid_input_no_network "" ("v") ("mp3")
    envSynth400 (Or.inl rfl)
  have h2 := synthesize_invalid_input_no_network
    (String.mk (List.replicate 5001 'a')) ("v") ("mp3")
    envSynth400 hlong
  exact ⟨Or.inl rfl, hlong, h1.1, h1.2.1, h2.1, h2.2.1⟩

/-- C9 counterexample: a first-attempt HTTP 400 makes
`synthesize_speech` raise the generic `VoiceServiceError` after only
one network call, so the error is not raised "exactly when all 4
attempts have been consumed". -/
theorem synthesize_service_error_after_one_attempt :
    (synthesize_speech ("hi") ("v") ("mp3") envSynth400).result =
      .error (.serviceError synthFailureMessage) ∧
    (synthesize_speech ("hi") ("v") ("mp3") envSynth400).networkCalls
      = 1 := by
  constructor <;> rfl

/-- C9 (amended): on valid text, `synthesize_speech` raises the
service error exactly when the retry loop ends without a success
(by exhausting all 4 attempts or by an early 4xx abort), never an
`InvalidInputError`, and the message is the fixed generic string,
independent of any status code or exception detail. -/
theorem synthesize_failure_iff_no_success (text vid fmt : String)
    (env : Nat → HttpResult (List Nat))
    (ht : text ≠ "") (hl : text.length ≤ 5000) :
    ((synthesize_speech text vid fmt env).result =
        .error (.serviceError synthFailureMessage) ↔
      (runRetry env).outcome = none) ∧
    (∀ m, (synthesize_speech text vid fmt env).result ≠
        .error (.invalidInput m)) ∧
    (∀ m, (synthesize_speech text vid fmt env).result =
        .error (.serviceError m) → m = synthFailureMessage) := by
  rw [synthesize_speech_valid text vid fmt env ht hl]
  rcases h : (runRetry env).outcome with _ | c <;> simp [h]

/-- Witness for the amended C9 on a failing and a succeeding run. -/
theorem synthesize_failure_iff_no_success_witness :
    (("hi" : String) ≠ "" ∧ ("hi" : String).length ≤ 5000) ∧
    ((synthesize_speech ("hi") ("v") ("mp3") envSynth400).result =
        .error (.serviceError synthFailureMessage) ↔
      (runRetry envSynth400).outcome = none) ∧
    (∀ m, (synthesize_speech ("hi") ("v") ("mp3") envSynth429).result ≠
        .error (.invalidInput m)) := by
  have h1 := synthesize_failure_iff_no_success ("hi") ("v") ("mp3")
    envSynth400 (by decide) (by decide)
  have h2 := synthesize_failure_iff_no_success ("hi") ("v") ("mp3")
    envSynth429 (by decide) (by decide)
  exact ⟨⟨by decide, by decide⟩, h1.1, h2.2.1⟩

/-- C5: for both operations, an attempt failing with a 4xx status
other than 429 (after any number of retryable attempts) aborts the
loop at once: exactly `k + 1` calls are made, no further delay is
slept, and the operation is a final failure. -/
theorem client_error_aborts_retries (k : ℕ) (hk : k < 4) (s : ℕ)
    (h4 : 400 ≤ s) (h5 : s < 500) (hne : s ≠ 429)
    (text vid fmt : String) (ht : text ≠ "") (hl : text.length ≤ 5000)
    (envS : Nat → HttpResult (List Nat)) (bS : List Nat)
    (hSprev : ∀ j < k, classify (envS j) = .retryable)
    (hSk : envS k = .response s bS)
    (settings : Settings) (cache : CacheState) (now : ℤ)
    (hmiss : cacheGet cache now = none)
    (envV : Nat → HttpResult VoicesBody) (bV : VoicesBody)
    (hVprev : ∀ j < k, classify (envV j) = .retryable)
    (hVk : envV k = .response s bV) :
    (synthesize_speech text vid fmt envS).result =
      .error (.serviceError synthFailureMessage) ∧
    (synthesize_speech text vid fmt envS).networkCalls = k + 1 ∧
    (synthesize_speech text vid fmt envS).sleeps = backoffs.take k ∧
    (get_voices settings cache now envV).voices =
      [fallbackVoice settings] ∧
    (get_voices settings cache now envV).networkCalls = k + 1 ∧
    (get_voices settings cache now envV).sleeps = backoffs.take k := by
  have hS : runRetry envS = ⟨none, k + 1, backoffs.take k⟩ :=
    runRetry_abort envS k hk hSprev
      (by rw [hSk]; exact classify_client_error bS h4 h5 hne)
  have hV : runRetry envV = ⟨none, k + 1, backoffs.take k⟩ :=
    runRetry_abort envV k hk hVprev
      (by rw [hVk]; exact classify_client_error bV h4 h5 hne)
  rw [synthesize_speech_valid text vid fmt envS ht hl,
      get_voices_miss settings cache now envV hmiss]
  simp [hS, hV]

/-- Witness for C5: a 400 on the very first attempt consumes one call
and sleeps nothing, for both operations. -/
theorem client_error_aborts_retries_witness :
    ((0 : ℕ) < 4 ∧ (400 : ℕ) ≤ 400 ∧ (400 : ℕ) < 500 ∧
      (400 : ℕ) ≠ 429 ∧ ("hi" : String) ≠ "" ∧
      ("hi" : String).length ≤ 5000 ∧
      cacheGet ⟨none, 0⟩ 0 = none ∧
      envSynth400 0 = .response 400 [] ∧
      envVoices400 0 = .response 400 ⟨none, none⟩) ∧
    (synthesize_speech ("hi") ("v") ("mp3") envSynth400).networkCalls
      = 0 + 1 ∧
    (synthesize_speech ("hi") ("v") ("mp3") envSynth400).sleeps =
      backoffs.take 0 ∧
    (get_voices ⟨"dv"⟩ ⟨none, 0⟩ 0 envVoices400).voices =
      [fallbackVoice ⟨"dv"⟩] ∧
    (get_voices ⟨"dv"⟩ ⟨none, 0⟩ 0 envVoices400).networkCalls =
      0 + 1 := by
  have h := client_error_aborts_retries 0 (by decide) 400 (by decide)
    (by decide) (by decide) ("hi") ("v") ("mp3") (by decide)
    (by decide) envSynth400 []
    (fun j hj => absurd hj (Nat.not_lt_zero j)) rfl
    ⟨"dv"⟩ ⟨none, 0⟩ 0 rfl envVoices400 ⟨none, none⟩
    (fun j hj => absurd hj (Nat.not_lt_zero j)) rfl
  exact ⟨⟨by decide, by decide, by decide, by decide, by decide,
    by decide, rfl, rfl, rfl⟩, h.2.1, h.2.2.1, h.2.2.2.1, h.2.2.2.2.1⟩

/-- C1: both operations follow the fixed schedule `[0, 0.5, 1, 2]` s
(here in ms), make at most 4 attempts, and a call whose first three
attempts hit 429 and whose 4th succeeds returns that success, having
slept the strictly increasing delays 500, 1000, 2000 ms in between. -/
theorem retry_schedule_four_attempts (text vid fmt : String)
    (ht : text ≠ "") (hl : text.length ≤ 5000)
    (settings : Settings) (cache : CacheState) (now : ℤ)
    (hmiss : cacheGet cache now = none)
    (envS : Nat → HttpResult (List Nat)) (b0 b1 b2 bytes : List Nat)
    (hS0 : envS 0 = .response 429 b0) (hS1 : envS 1 = .response 429 b1)
    (hS2 : envS 2 = .response 429 b2) (hS3 : envS 3 = .response 200 bytes)
    (envV : Nat → HttpResult VoicesBody) (v0 v1 v2 body : VoicesBody)
    (hV0 : envV 0 = .response 429 v0) (hV1 : envV 1 = .response 429 v1)
    (hV2 : envV 2 = .response 429 v2) (hV3 : envV 3 = .response 200 body) :
    schedule = [0, 500, 1000, 2000] ∧
    (∀ envA : Nat → HttpResult (List Nat),
      (synthesize_speech text vid fmt envA).networkCalls ≤ 4) ∧
    (∀ envB : Nat → HttpResult VoicesBody,
      (get_voices settings cache now envB).networkCalls ≤ 4) ∧
    (synthesize_speech text vid fmt envS).result = .ok bytes ∧
    (synthesize_speech text vid fmt envS).networkCalls = 4 ∧
    (synthesize_speech text vid fmt envS).sleeps = [500, 1000, 2000] ∧
    List.Chain' (· < ·) (synthesize_speech text vid fmt envS).sleeps ∧
    (get_voices settings cache now envV).voices =
      normalizedVoices settings body ∧
    (get_voices settings cache now envV).networkCalls = 4 ∧
    (get_voices settings cache now envV).sleeps = [500, 1000, 2000] := by
  have cS0 : classify (envS 0) = .retryable := by
    rw [hS0]; exact classify_rate_limit b0
  have cS1 : classify (envS 1) = .retryable := by
    rw [hS1]; exact classify_rate_limit b1
  have cS2 : classify (envS 2) = .retryable := by
    rw [hS2]; exact classify_rate_limit b2
  have cS3 : classify (envS 3) = .ok bytes := by
    rw [hS3]; exact classify_success bytes (by omega)
  have cV0 : classify (envV 0) = .retryable := by
    rw [hV0]; exact classify_rate_limit v0
  have cV1 : classify (envV 1) = .retryable := by
    rw [hV1]; exact classify_rate_limit v1
  have cV2 : classify (envV 2) = .retryable := by
    rw [hV2]; exact classify_rate_limit v2
  have cV3 : classify (envV 3) = .ok body := by
    rw [hV3]; exact classify_success body (by omega)
  have hS : runRetry envS = ⟨some bytes, 4, [500, 1000, 2000]⟩ := by
    simp [runRetry, schedule, backoffs, retryGo, cS0, cS1, cS2, cS3]
  have hV : runRetry envV = ⟨some body, 4, [500, 1000, 2000]⟩ := by
    simp [runRetry, schedule, backoffs, retryGo, cV0, cV1, cV2, cV3]
  refine ⟨rfl, ?_, ?_, ?_⟩
  · intro envA
    rw [synthesize_speech_valid text vid fmt envA ht hl]
    rcases h : (runRetry envA).outcome with _ | c <;>
      simp [h, runRetry_attempts_le]
  · intro envB
    rw [get_voices_miss settings cache now envB hmiss]
    rcases h : (runRetry envB).outcome with _ | b <;>
      simp [h, runRetry_attempts_le]
  · rw [synthesize_speech_valid text vid fmt envS ht hl,
        get_voices_miss settings cache now envV hmiss]
    simp [hS, hV]

/-- Witness for C1 with three 429s then a 200 on both operations. -/
theorem retry_schedule_four_attempts_witness :
    (("hi" : String) ≠ "" ∧ ("hi" : String).length ≤ 5000 ∧
      cacheGet ⟨none, 0⟩ 0 = none ∧
      envSynth429 0 = .response 429 [] ∧
      envSynth429 3 = .response 200 [7, 8] ∧
      envVoices429 3 = .response 200 sampleBody) ∧
    (synthesize_speech ("hi") ("v") ("mp3") envSynth429).result =
      .ok [7, 8] ∧
    (synthesize_speech ("hi") ("v") ("mp3") envSynth429).networkCalls
      = 4 ∧
    (synthesize_speech ("hi") ("v") ("mp3") envSynth429).sleeps =
      [500, 1000, 2000] ∧
    (get_voices ⟨"dv"⟩ ⟨none, 0⟩ 0 envVoices429).voices =
      normalizedVoices ⟨"dv"⟩ sampleBody ∧
    (get_voices ⟨"dv"⟩ ⟨none, 0⟩ 0 envVoices429).networkCalls = 4 := by
  have h := retry_schedule_four_attempts ("hi") ("v") ("mp3")
    (by decide) (by decide) ⟨"dv"⟩ ⟨none, 0⟩ 0 rfl
    envSynth429 [] [] [] [7, 8] rfl rfl rfl rfl
    envVoices429 ⟨none, none⟩ ⟨none, none⟩ ⟨none, none⟩ sampleBody
    rfl rfl rfl rfl
  exact ⟨⟨by decide, by decide, rfl, rfl, rfl, rfl⟩,
    h.2.2.2.1, h.2.2.2.2.1, h.2.2.2.2.2.1, h.2.2.2.2.2.2.2.1,
    h.2.2.2.2.2.2.2.2.1⟩

/-- C2: when the cache misses and every attempt fails, `get_voices`
returns (it never raises in the model) exactly the single fallback
entry built from the configured default voice id, the cache is left
unchanged, and a subsequent call with the resulting cache state at the
same time performs a new network fetch. -/
theorem get_voices_total_failure_fallback (settings : Settings)
    (cache : CacheState) (now : ℤ)
    (env : Nat → HttpResult VoicesBody)
    (hmiss : cacheGet cache now = none)
    (hfail : (runRetry env).outcome = none) :
    (get_voices settings cache now env).voices =
      [⟨some settings.default_voice_id, "Default", some []⟩] ∧
    (get_voices settings cache now env).cache = cache ∧
    (∀ env' : Nat → HttpResult VoicesBody,
      1 ≤ (get_voices settings
        ((get_voices settings cache now env).cache) now
        env').networkCalls) := by
  have h := get_voices_miss settings cache now env hmiss
  rw [h]
  simp only [hfail]
  refine ⟨rfl, trivial, ?_⟩
  intro env'
  rw [get_voices_miss settings cache now env' hmiss]
  rcases h' : (runRetry env').outcome with _ | b <;> simp [h'] <;>
    exact runRetry_attempts_pos env'

/-- Witness for C2: a run of four 503 responses. -/
theorem get_voices_total_failure_fallback_witness :
    (cacheGet ⟨none, 0⟩ 0 = none ∧
      (runRetry envVoices503).outcome = none) ∧
    (get_voices ⟨"dv"⟩ ⟨none, 0⟩ 0 envVoices503).voices =
      [⟨some ("dv"), "Default", some []⟩] ∧
    (get_voices ⟨"dv"⟩ ⟨none, 0⟩ 0 envVoices503).cache = ⟨none, 0⟩ := by
  have h := get_voices_total_failure_fallback ⟨"dv"⟩ ⟨none, 0⟩ 0
    envVoices503 rfl (by decide)
  exact ⟨⟨rfl, by decide⟩, h.1, h.2.1⟩

/-- C3: the cache yields its value exactly when one is stored and
`now - fetched_at ≤ ttl`; a hit makes `get_voices` return the cached
sequence with no network call; after a successful fetch, a call within
the TTL window returns the identical sequence with no network call,
and a call after the TTL has elapsed performs a new network fetch. -/
theorem cache_ttl_semantics (settings : Settings) (cache : CacheState)
    (now now' : ℤ) (env env' : Nat → HttpResult VoicesBody)
    (body : VoicesBody)
    (hmiss : cacheGet cache now = none)
    (hsucc : (runRetry env).outcome = some body) :
    (∀ (c : CacheState) (t : ℤ) (v : List Voice),
      cacheGet c t = some v ↔
        (c.value = some v ∧ t - c.ts ≤ cacheTtl)) ∧
    (∀ (c : CacheState) (t : ℤ) (v : List Voice),
      cacheGet c t = some v →
        get_voices settings c t env' = ⟨v, c, 0, []⟩) ∧
    (now' - now ≤ cacheTtl →
      get_voices settings ((get_voices settings cache now env).cache)
          now' env'
        = ⟨(get_voices settings cache now env).voices,
           (get_voices settings cache now env).cache, 0, []⟩) ∧
    (cacheTtl < now' - now →
      1 ≤ (get_voices settings
        ((get_voices settings cache now env).cache) now'
        env').networkCalls) := by
  have hr : get_voices settings cache now env =
      ⟨normalizedVoices settings body,
       ⟨some (normalizedVoices settings body), now⟩,
       (runRetry env).attempts, (runRetry env).sleeps⟩ := by
    rw [get_voices_miss settings cache now env hmiss]
    simp [hsucc, cacheSet]
  refine ⟨?_, ?_, ?_, ?_⟩
  · intro c t v
    rcases hc : c.value with _ | w
    · simp [cacheGet, hc]
    · by_cases ht : t - c.ts > cacheTtl
      · simp only [cacheGet, hc, if_pos ht]
        constructor
        · intro hcontra
          exact absurd hcontra (by simp)
        · rintro ⟨h1, h2⟩
          omega
      · have hle : t - c.ts ≤ cacheTtl := by omega
        simp [cacheGet, hc, ht, hle]
  · intro c t v hcv
    simp [get_voices, hcv]
  · intro hle
    rw [hr]
    have hnot : ¬ (now' - now > cacheTtl) := by omega
    simp [get_voices, cacheGet, hnot]
  · intro hgt
    rw [hr]
    have hmiss' : cacheGet ⟨some (normalizedVoices settings body), now⟩
        now' = none := by
      simp [cacheGet, hgt]
    rw [get_voices_miss settings _ now' env' hmiss']
    rcases h' : (runRetry env').outcome with _ | b <;> simp [h'] <;>
      exact runRetry_attempts_pos env'

/-- Witness for C3: a fetch at time 0, re-read at the TTL edge and
just past it. -/
theorem cache_ttl_semantics_witness :
    (cacheGet ⟨none, 0⟩ 0 = none ∧
      (runRetry envVoices200).outcome = some sampleBody ∧
      (600000 : ℤ) - 0 ≤ cacheTtl ∧ cacheTtl < (600001 : ℤ) - 0) ∧
    (get_voices ⟨"dv"⟩ ((get_voices ⟨"dv"⟩ ⟨none, 0⟩ 0 envVoices200).cache)
        600000 envVoices503
      = ⟨(get_voices ⟨"dv"⟩ ⟨none, 0⟩ 0 envVoices200).voices,
         (get_voices ⟨"dv"⟩ ⟨none, 0⟩ 0 envVoices200).cache, 0, []⟩) ∧
    (1 ≤ (get_voices ⟨"dv"⟩
        ((get_voices ⟨"dv"⟩ ⟨none, 0⟩ 0 envVoices200).cache) 600001
        envVoices503).networkCalls) := by
  have h1 := cache_ttl_semantics ⟨"dv"⟩ ⟨none, 0⟩ 0 600000
    envVoices200 envVoices503 sampleBody rfl (by decide)
  have h2 := cache_ttl_semantics ⟨"dv"⟩ ⟨none, 0⟩ 0 600001
    envVoices200 envVoices503 sampleBody rfl (by decide)
  exact ⟨⟨rfl, by decide, by decide, by decide⟩,
    h1.2.2.1 (by decide), h2.2.2.2 (by decide)⟩

/-- A non-negative page slices like `drop`/`take`. -/
lemma page_slice_nonneg (l : List Voice) (p : ℕ) :
    page_slice l (p : Int) 8 = (l.drop (p * 8)).take 8 := by
  have hcast : ∀ m : ℕ, pyIdx l.length ((m : ℕ) : Int) = min m l.length := by
    intro m
    simp [pyIdx]
  have h1 : pyIdx l.length ((p : Int) * 8) = min (p * 8) l.length := by
    have : ((p : Int) * 8) = ((p * 8 : ℕ) : Int) := by push_cast; ring
    rw [this, hcast]
  have h2 : pyIdx l.length ((p : Int) * 8 + 8)
      = min (p * 8 + 8) l.length := by
    have : ((p : Int) * 8 + 8) = ((p * 8 + 8 : ℕ) : Int) := by
      push_cast; ring
    rw [this, hcast]
  show pySlice l ((p : Int) * 8) ((p : Int) * 8 + 8) = _
  rw [pySlice, h1, h2]
  rcases le_or_lt (p * 8 + 8) l.length with hA | hB
  · rw [min_eq_left hA, min_eq_left (by omega), List.drop_take]
    congr 1
    omega
  rcases le_or_lt l.length (p * 8) with hC | hD
  · have m1 : p * 8 ⊓ l.length = l.length := min_eq_right hC
    have m2 : (p * 8 + 8) ⊓ l.length = l.length := min_eq_right (by omega)
    rw [m1, m2, List.take_length, List.drop_length,
        List.drop_eq_nil_of_le hC, List.take_nil]
  · have m1 : p * 8 ⊓ l.length = p * 8 := min_eq_left (by omega)
    have m2 : (p * 8 + 8) ⊓ l.length = l.length := min_eq_right (by omega)
    rw [m1, m2, List.take_length,
        List.take_of_length_le
          (show (l.drop (p * 8)).length ≤ 8 by
            rw [List.length_drop]; omega)]

/-- Concatenating the first `k` size-8 chunks of `l` yields its first
`k * 8` elements. -/
lemma flatMap_range_chunks (l : List Voice) (k : ℕ) :
    (List.range k).flatMap (fun p => (l.drop (p * 8)).take 8)
      = l.take (k * 8) := by
  induction k with
  | zero => simp
  | succ k ih =>
      rw [List.range_succ, List.flatMap_append, ih]
      have : (k + 1) * 8 = k * 8 + 8 := by ring
      rw [this, List.take_add]
      simp

/-- Ceiling division by 8 via the add-and-floor trick. -/
lemma ceil_div_eight (N : ℕ) : ⌈(N : ℚ) / 8⌉₊ = (N + 7) / 8 := by
  rcases Nat.eq_zero_or_pos N with h | h
  · subst h
    simp
  · have hne : (N + 7) / 8 ≠ 0 := by omega
    rw [Nat.ceil_eq_iff hne]
    have h1 : ((N + 7) / 8 - 1) * 8 < N := by omega
    have h2 : N ≤ (N + 7) / 8 * 8 := by omega
    constructor
    · rw [lt_div_iff₀ (by norm_num : (0 : ℚ) < 8)]
      exact_mod_cast h1
    · rw [div_le_iff₀ (by norm_num : (0 : ℚ) < 8)]
      exact_mod_cast h2

/-- C4: with page size 8, `total_pages = max(1, ceil(N/8))`, and the
item slices of pages `0 .. total_pages - 1` concatenate back to the
original list in order. -/
theorem pagination_partition (voices : List Voice) :
    (∀ page : Int, (_paginate_buttons voices page 8).2
        = max 1 ⌈(voices.length : ℚ) / 8⌉₊) ∧
    (List.range (_paginate_buttons voices 0 8).2).flatMap
        (fun p => page_slice voices (p : Int) 8) = voices := by
  have hlen : voices.length + 8 - 1 = voices.length + 7 := by omega
  have htp : ∀ page : Int, (_paginate_buttons voices page 8).2
      = max 1 ((voices.length + 7) / 8) := by
    intro page
    show max 1 ((voices.length + 8 - 1) / 8) = _
    rw [hlen]
  constructor
  · intro page
    rw [htp page, ceil_div_eight]
  · rw [htp 0]
    simp only [page_slice_nonneg]
    rw [flatMap_range_chunks]
    apply List.take_of_length_le
    have := Nat.le_max_right 1 ((voices.length + 7) / 8)
    omega

/-- C7: the helper is a pure function; its last row is the navigation
row, which holds a previous control iff `page > 0`, a next control iff
`page + 1 < total_pages`, and always a refresh control; a page at or
beyond `total_pages` still yields the navigation row, with an empty
item slice. -/
theorem pagination_nav_controls (voices : List Voice) (page : Int) :
    ∃ nav : List Button,
      (_paginate_buttons voices page 8).1.getLast? = some nav ∧
      (prevButton page ∈ nav ↔ 0 < page) ∧
      (nextButton page ∈ nav ↔
        page + 1 < ((_paginate_buttons voices page 8).2 : Int)) ∧
      refreshButton ∈ nav ∧
      (((_paginate_buttons voices page 8).2 : Int) ≤ page →
        page_slice voices page 8 = [] ∧
        (_paginate_buttons voices page 8).1 = [nav]) := by
  refine ⟨(if page > 0 then [prevButton page] else []) ++
    (if page + 1 < ((_paginate_buttons voices page 8).2 : Int)
      then [nextButton page] else []) ++ [refreshButton],
    List.getLast?_concat _, ?_, ?_, ?_, ?_⟩
  · by_cases hp : 0 < page <;>
      by_cases hn : page + 1 < ((_paginate_buttons voices page 8).2 : Int) <;>
      simp [hp, hn, prevButton, nextButton, refreshButton]
  · by_cases hp : 0 < page <;>
      by_cases hn : page + 1 < ((_paginate_buttons voices page 8).2 : Int) <;>
      simp [hp, hn, prevButton, nextButton, refreshButton]
  · by_cases hp : 0 < page <;>
      by_cases hn : page + 1 < ((_paginate_buttons voices page 8).2 : Int) <;>
      simp [hp, hn]
  · intro hge
    have htp1 : 1 ≤ (_paginate_buttons voices page 8).2 :=
      Nat.le_max_left 1 _
    have hlen : voices.length ≤ (_paginate_buttons voices page 8).2 * 8 := by
      show voices.length ≤ max 1 ((voices.length + 8 - 1) / 8) * 8
      have := Nat.le_max_right 1 ((voices.length + 8 - 1) / 8)
      omega
    have hp1 : (1 : Int) ≤ page :=
      le_trans (by exact_mod_cast htp1) hge
    have hpage8 : (voices.length : Int) ≤ page * 8 := by
      calc (voices.length : Int)
          ≤ ((_paginate_buttons voices page 8).2 : Int) * 8 := by
            exact_mod_cast hlen
        _ ≤ page * 8 := by
            apply mul_le_mul_of_nonneg_right hge
            norm_num
    have hempty : page_slice voices page 8 = [] := by
      rw [page_slice, pySlice]
      simp only [Nat.cast_ofNat]
      apply List.drop_eq_nil_of_le
      have hidx : pyIdx voices.length (page * 8) = voices.length := by
        rw [pyIdx]
        have h0 : ¬ (page * 8 < 0) := by omega
        rw [if_neg h0]
        omega
      rw [hidx, List.length_take]
      omega
    refine ⟨hempty, ?_⟩
    have hr : (_paginate_buttons voices page 8).1
        = (page_slice voices page 8).map (fun v => [voiceButton v]) ++
          [(if page > 0 then [prevButton page] else []) ++
           (if page + 1 < ((_paginate_buttons voices page 8).2 : Int)
             then [nextButton page] else []) ++ [refreshButton]] := rfl
    rw [hr, hempty]
    rfl

/-- Witness for C4 on the 24-entry demo list (3 pages). -/
theorem pagination_partition_witness :
    (∀ page : Int, (_paginate_buttons demoVoices page 8).2
        = max 1 ⌈(demoVoices.length : ℚ) / 8⌉₊) ∧
    (List.range (_paginate_buttons demoVoices 0 8).2).flatMap
        (fun p => page_slice demoVoices (p : Int) 8) = demoVoices :=
  pagination_partition demoVoices

/-- Witness for C7 at page 5, beyond the demo list's 3 pages. -/
theorem pagination_nav_controls_witness :
    ∃ nav : List Button,
      (_paginate_buttons demoVoices 5 8).1.getLast? = some nav ∧
      (prevButton 5 ∈ nav ↔ (0 : Int) < 5) ∧
      (nextButton 5 ∈ nav ↔
        (5 : Int) + 1 < ((_paginate_buttons demoVoices 5 8).2 : Int)) ∧
      refreshButton ∈ nav ∧
      (((_paginate_buttons demoVoices 5 8).2 : Int) ≤ 5 →
        page_slice demoVoices 5 8 = [] ∧
        (_paginate_buttons demoVoices 5 8).1 = [nav]) :=
  pagination_nav_controls demoVoices 5

/-- C10: a negative page (reachable because `page:<int>` payloads are
parsed with no lower bound) yields no previous control, a next control
iff `page + 1 < total_pages` (so page -1 points at page 0), and an item
slice computed by Python negative-index slicing: empty at page -1, but
a non-empty tail slice at page -2 on a long enough list. -/
theorem pagination_negative_page (voices : List Voice) (page : Int)
    (hneg : page < 0) :
    ∃ nav : List Button,
      (_paginate_buttons voices page 8).1.getLast? = some nav ∧
      prevButton page ∉ nav ∧
      (nextButton page ∈ nav ↔
        page + 1 < ((_paginate_buttons voices page 8).2 : Int)) ∧
      (_paginate_buttons voices page 8).1.dropLast
        = (page_slice voices page 8).map (fun v => [voiceButton v]) ∧
      (page = -1 →
        page_slice voices page 8 = [] ∧ nextButton page ∈ nav) ∧
      (nextButton (-1)).callback_data = "page:0" ∧
      callbackPage ("page:-1") = some (-1) ∧
      page_slice demoVoices (-2) 8 = (demoVoices.drop 8).take 8 ∧
      (demoVoices.drop 8).take 8 ≠ [] := by
  have hp : ¬ (0 < page) := by omega
  have htp1 : 1 ≤ (_paginate_buttons voices page 8).2 :=
    Nat.le_max_left 1 _
  refine ⟨(if page > 0 then [prevButton page] else []) ++
    (if page + 1 < ((_paginate_buttons voices page 8).2 : Int)
      then [nextButton page] else []) ++ [refreshButton],
    List.getLast?_concat _, ?_, ?_, ?_, ?_, rfl, by decide, by decide,
    by decide⟩
  · by_cases hn : page + 1 < ((_paginate_buttons voices page 8).2 : Int) <;>
      simp [hp, hn, prevButton, nextButton, refreshButton]
  · by_cases hn : page + 1 < ((_paginate_buttons voices page 8).2 : Int) <;>
      simp [hp, hn, prevButton, nextButton, refreshButton]
  · have hr : (_paginate_buttons voices page 8).1
        = (page_slice voices page 8).map (fun v => [voiceButton v]) ++
          [(if page > 0 then [prevButton page] else []) ++
           (if page + 1 < ((_paginate_buttons voices page 8).2 : Int)
             then [nextButton page] else []) ++ [refreshButton]] := rfl
    rw [hr, List.dropLast_concat]
  · intro h1
    subst h1
    have hempty : page_slice voices (-1) 8 = [] := by
      rw [page_slice, pySlice]
      norm_num [pyIdx]
    have hn : (-1 : Int) + 1 < ((_paginate_buttons voices (-1) 8).2 : Int) := by
      have : (1 : Int) ≤ ((_paginate_buttons voices (-1) 8).2 : Int) := by
        exact_mod_cast htp1
      omega
    refine ⟨hempty, ?_⟩
    simp [hp, hn]
    exact Or.inl htp1

/-- Witness for C10 at page -1 over the demo list. -/
theorem pagination_negative_page_witness :
    ((-1 : Int) < 0) ∧
    ∃ nav : List Button,
      (_paginate_buttons demoVoices (-1) 8).1.getLast? = some nav ∧
      prevButton (-1) ∉ nav ∧
      (nextButton (-1) ∈ nav ↔
        (-1 : Int) + 1 < ((_paginate_buttons demoVoices (-1) 8).2 : Int)) ∧
      (_paginate_buttons demoVoices (-1) 8).1.dropLast
        = (page_slice demoVoices (-1) 8).map (fun v => [voiceButton v]) ∧
      ((-1 : Int) = -1 →
        page_slice demoVoices (-1) 8 = [] ∧ nextButton (-1) ∈ nav) ∧
      (nextButton (-1)).callback_data = "page:0" ∧
      callbackPage ("page:-1") = some (-1) ∧
      page_slice demoVoices (-2) 8 = (demoVoices.drop 8).take 8 ∧
      (demoVoices.drop 8).take 8 ≠ [] :=
  ⟨by decide, pagination_negative_page demoVoices (-1) (by decide)⟩

/-- C8 counterexample: a raw entry with neither a `voice_id` nor an
`id` field normalizes to a record whose id is `None`, not a non-empty
string. -/
theorem normalize_voice_id_can_be_none :
    (normalize_voice ⟨none, none, some ("X"), none⟩).id = none := rfl

/-- C8 (amended): a normalized entry takes its id from `voice_id` when
that is truthy and verbatim from the `id` field otherwise, so the id is
a non-empty string whenever the raw entry carries a truthy `voice_id`
or a truthy `id`, an entry with both fields absent normalizes to a
`None` id, and the name always defaults to a non-empty string. -/
theorem normalize_voice_id_nonempty (v : RawVoice)
    (h : strTruthy v.voice_id = true ∨ strTruthy v.vid = true) :
    (∃ s, (normalize_voice v).id = some s ∧ s ≠ "") ∧
    (strTruthy v.voice_id = true →
      (normalize_voice v).id = v.voice_id) ∧
    (strTruthy v.voice_id = false → (normalize_voice v).id = v.vid) ∧
    (∀ w : RawVoice, w.voice_id = none → w.vid = none →
      (normalize_voice w).id = none) ∧
    (normalize_voice v).name ≠ "" := by
  refine ⟨?_, ?_, ?_, ?_, ?_⟩
  · by_cases ht : strTruthy v.voice_id = true
    · rcases hv : v.voice_id with _ | s
      · rw [hv] at ht
        simp [strTruthy] at ht
      · rw [hv] at ht
        simp [strTruthy] at ht
        exact ⟨s, by simp [normalize_voice, pyOrStr, hv, strTruthy, ht],
          ht⟩
    · have hvid : strTruthy v.vid = true := by
        rcases h with h | h
        · exact absurd h ht
        · exact h
      rcases hv : v.vid with _ | s
      · rw [hv] at hvid
        simp [strTruthy] at hvid
      · rw [hv] at hvid
        simp [strTruthy] at hvid
        refine ⟨s, ?_, hvid⟩
        simp only [normalize_voice, pyOrStr]
        rw [if_neg (by simpa using ht), hv]
  · intro ht
    simp [normalize_voice, pyOrStr, ht]
  · intro ht
    simp [normalize_voice, pyOrStr, ht]
  · intro w h1 h2
    simp [normalize_voice, pyOrStr, strTruthy, h1, h2]
  · rcases hn : v.name with _ | s
    · simp [normalize_voice, pyStrOrDefault, hn]
    · by_cases hs : s = "" <;>
        simp [normalize_voice, pyStrOrDefault, hn, hs]

/-- Witness for the amended C8 on an entry carrying a `voice_id`. -/
theorem normalize_voice_id_nonempty_witness :
    (strTruthy (some ("abc")) = true ∨ strTruthy none = true) ∧
    (∃ s, (normalize_voice ⟨some ("abc"), none, none, none⟩).id
        = some s ∧ s ≠ "") ∧
    (normalize_voice ⟨none, none, none, none⟩).id = none ∧
    (normalize_voice ⟨some ("abc"), none, none, none⟩).name ≠ "" := by
  have h := normalize_voice_id_nonempty ⟨some ("abc"), none, none, none⟩
    (Or.inl (by decide))
  exact ⟨Or.inl (by decide), h.1,
    h.2.2.2.1 ⟨none, none, none, none⟩ rfl rfl, h.2.2.2.2⟩

end PE43
